import Mathlib

/-!
Verification of the flight-booking screenshot Lambda handler.

The embedding models the handler of src/unnamed/part_001 (the variant with the
form-validation battery) and, for the filename construction, the handler of
src/src/index.ts.  Each awaited collaborator call (browser launch, page
navigation, selector wait, element screenshot, file read, S3 send, browser
close, and each Playwright expect probe) is represented by its outcome: either
a resolved value or a thrown error carrying the error message.  A `World`
packages one outcome per call site together with the environment configuration
and the streams of values returned by Date.now() and toISOString(), so that the
handler becomes a pure function of the `World`, of the close outcome and of the
inbound event.
-/

namespace FlightBooking

/-- Outcome of one awaited call: either a resolved value or a thrown error
carrying its message (the `error.message` the catch blocks read). -/
inductive Res (α : Type) where
  | ok : α → Res α
  | thrown : String → Res α
deriving DecidableEq, Repr

/-- Status of one entry of the testResults array (interface TestResult). -/
inductive Status where
  | SUCCESS
  | FAILURE
deriving DecidableEq, Repr

/-- One entry of the testResults array, mirroring interface TestResult of
src/unnamed/part_001: name, status, optional details, optional elapsed time. -/
structure TestResult where
  name : String
  status : Status
  details : Option String
  executionTimeMs : Option Int
deriving DecidableEq, Repr

/-- Parameters of one S3 PutObjectCommand as built by the handler:
Bucket, Key and ContentType (the Body bytes are not modelled). -/
structure S3Put where
  bucket : String
  key : String
  contentType : String
deriving DecidableEq, Repr

/-- One invocation's outside world: the outcome of every awaited collaborator
call the try block can reach, the environment configuration, and the value
streams of Date.now() (`clock k` is the k-th call) and of
new Date().toISOString() (`iso k` is the k-th call). -/
structure World where
  envDirErrors : List (Option String)
  launch : Res Unit
  newContext : Res Unit
  newPage : Res Unit
  goto : Res Unit
  waitForSelector : Res Unit
  selectorFound : Bool
  elementScreenshot : Res Unit
  readFile : Res Unit
  s3Send : Res Unit
  envBucket : Option String
  tripTypeVisible : Res Unit
  passengersVisible : Res Unit
  originVisible : Res Unit
  destinationVisible : Res Unit
  departureVisible : Res Unit
  returnVisible : Res Unit
  searchVisible : Res Unit
  searchEnabled : Res Unit
  clock : Nat → Int
  iso : Nat → String

/-- PARAMETERS.url from src/src/utils/constants.ts. -/
def PARAMETERS_url : String :=
  "https://flights.aegeanair.com/en/flights-from-istanbul-to-athens"

/-- PARAMETERS.selector from src/src/utils/constants.ts. -/
def PARAMETERS_selector : String := "div[data-em-cmp=\"flights-booking\"]"

/-- TIMEOUT_NAVIGATION from src/src/utils/constants.ts. -/
def TIMEOUT_NAVIGATION : Nat := 60000

/-- TIMEOUT_SELECTOR from src/src/utils/constants.ts. -/
def TIMEOUT_SELECTOR : Nat := 60000

/-- ensureDirectoriesExist from src/src/utils/index.ts: the loop catches and
logs each directory's mkdir/chmod failure, so the call always resolves. -/
def ensureDirectoriesExist : List (Option String) → Res Unit
  | [] => Res.ok ()
  | _ :: rest => ensureDirectoriesExist rest

@[simp] theorem ensureDirectoriesExist_ok (l : List (Option String)) :
    ensureDirectoriesExist l = Res.ok () := by
  induction l with
  | nil => rfl
  | cons a t ih => exact ih

/-- One character of `new Date().toISOString().replace(/[:.]/g, "-")`:
colons and periods become dashes, all other characters pass through. -/
def sanitizeChar (c : Char) : Char := if c = ':' ∨ c = '.' then '-' else c

/-- The replace(/[:.]/g, "-") applied to the ISO timestamp string. -/
def sanitize (s : String) : String := ⟨ s.data.map sanitizeChar ⟩

/-- The filename built at src/unnamed/part_001 line 118 from the sanitised
timestamp (the first toISOString() call of the run). -/
def filenameOf (ts : String) : String :=
  "aegean-flight-booking-" ++ sanitize ts ++ ".png"

/-- Bucket name: process.env.AWS_S3_BUCKET with its documented default. -/
def bucketOf (w : World) : String :=
  w.envBucket.getD "technical-playwright-result"

/-- The screenshot URL the handler assigns after a successful upload. -/
def urlOf (w : World) : String :=
  "https://" ++ bucketOf w ++ ".s3.amazonaws.com/screenshots/" ++
    filenameOf (w.iso 0)

/-- The PutObjectCommand parameters the handler sends. -/
def putOf (w : World) : S3Put :=
  ⟨ bucketOf w, "screenshots/" ++ filenameOf (w.iso 0), "image/png" ⟩

def tripTypeName : String := "Validate trip type selector"

def passengersName : String := "Validate passengers and class selector"

def originDestName : String := "Validate origin and destination fields"

def datesName : String := "Validate date selectors"

def searchName : String := "Validate search button"

def tripTypeOkDetails : String := "Trip type selector is visible."

def passengersOkDetails : String := "Passengers and class selector is visible."

def originDestOkDetails : String := "Origin and destination fields are visible."

def datesOkDetails : String := "Departure and return date selectors are visible."

def searchOkDetails : String := "Search button is visible and enabled."

/-- Names of the five validation-check entries, in declared order. -/
def checkNames : List String :=
  [ tripTypeName, passengersName, originDestName, datesName, searchName ]

/-- Run the awaited probes of one try block in order: the first thrown probe
aborts the block with its error, later probes of the same block do not run. -/
def runProbes : List (Res Unit) → Res Unit
  | [] => Res.ok ()
  | Res.ok _ :: rest => runProbes rest
  | Res.thrown e :: _ => Res.thrown e

/-- One try/catch validation block of step 4: on success it pushes a SUCCESS
entry with the block's message, a thrown probe is caught at the block boundary
and recorded as a FAILURE entry with details `Error: ` plus the message. -/
def runCheck (n d : String) (probes : List (Res Unit)) : TestResult :=
  match runProbes probes with
  | Res.ok _ => ⟨ n, Status.SUCCESS, some d, none ⟩
  | Res.thrown e => ⟨ n, Status.FAILURE, some ("Error: " ++ e), none ⟩

/-- The five try/catch blocks of step 4 in declared order, each with its name,
its success details and its awaited expect probes in source order. -/
def checks (w : World) : List (String × String × List (Res Unit)) :=
  [ (tripTypeName, tripTypeOkDetails, [w.tripTypeVisible])
  , (passengersName, passengersOkDetails, [w.passengersVisible])
  , (originDestName, originDestOkDetails, [w.originVisible, w.destinationVisible])
  , (datesName, datesOkDetails, [w.departureVisible, w.returnVisible])
  , (searchName, searchOkDetails, [w.searchVisible, w.searchEnabled]) ]

/-- The validation battery: the five blocks run strictly sequentially. -/
def battery (w : World) : List TestResult :=
  (checks w).map fun c => runCheck c.1 c.2.1 c.2.2

/-- The step-1 entry pushed after page.goto resolves.  Date.now() call
indices on this path: 0 startTime, 1 navigateStartTime, 2 navigateEndTime. -/
def navE (w : World) : TestResult :=
  ⟨ "Navigate to Aegean Air website", Status.SUCCESS
  , some ("Navigated to " ++ PARAMETERS_url)
  , some (w.clock 2 - w.clock 1) ⟩

/-- The step-2 entry pushed after page.waitForSelector resolves (pushed before
the null check on the resolved handle). -/
def locE (w : World) : TestResult :=
  ⟨ "Locate the booking component", Status.SUCCESS
  , some ("Component \x27" ++ PARAMETERS_selector ++ "\x27 found.")
  , some (w.clock 4 - w.clock 3) ⟩

/-- The step-3 entry pushed after the S3 upload resolves. -/
def capE (w : World) : TestResult :=
  ⟨ "Capture a screenshot of the component", Status.SUCCESS
  , some ("Screenshot uploaded to S3: " ++ urlOf w)
  , some (w.clock 6 - w.clock 5) ⟩

/-- The synthetic battery-completion entry pushed after the five blocks. -/
def sumE (w : World) : TestResult :=
  ⟨ "Booking form validation", Status.SUCCESS
  , some "All booking form validations have been completed."
  , some (w.clock 8 - w.clock 7) ⟩

/-- Name of the entry the catch block pushes. -/
def fatalEntryName : String := "Fatal error during execution"

/-- State at the end of the try block of src/unnamed/part_001: the entries
pushed so far, the screenshotUrl variable, the S3 puts attempted, the
totalExecutionTimeMs variable, the error that reached the catch block (none on
normal completion), and how many toISOString() calls have happened. -/
structure TryOut where
  results : List TestResult
  url : Option String
  puts : List S3Put
  totalMs : Int
  fatal : Option String
  isoUsed : Nat
deriving DecidableEq, Repr

/-- Try-block state when the error `e` was thrown: entries pushed before the
throw survive, screenshotUrl is still null, totalExecutionTimeMs keeps its
initial 0 (it is assigned only at the very end of the try block). -/
def fatalOut (rs : List TestResult) (ps : List S3Put) (k : Nat) (e : String) :
    TryOut :=
  ⟨ rs, none, ps, 0, some e, k ⟩

/-- Try-block state on normal completion: the three pipeline entries, the five
battery entries, the summary entry; the URL and the put of the upload; the
elapsed time between the first and the last Date.now() call. -/
def successTryOut (w : World) : TryOut :=
  ⟨ [navE w, locE w, capE w] ++ battery w ++ [sumE w]
  , some (urlOf w)
  , [putOf w]
  , w.clock 9 - w.clock 0
  , none
  , 1 ⟩

/-- The try block of the handler of src/unnamed/part_001, lines 58-202:
directories, launch, newContext, newPage, goto, waitForSelector, the null
check on the resolved handle, element screenshot, timestamp and filename,
readFile, S3 send, the capture entry, the five validation blocks, the summary
entry, and the final totalExecutionTimeMs assignment.  Any throw jumps to the
catch block, carrying the entries already pushed. -/
def runTry (w : World) : TryOut :=
  match ensureDirectoriesExist w.envDirErrors with
  | Res.thrown e => fatalOut [] [] 0 e
  | Res.ok _ =>
    match w.launch with
    | Res.thrown e => fatalOut [] [] 0 e
    | Res.ok _ =>
      match w.newContext with
      | Res.thrown e => fatalOut [] [] 0 e
      | Res.ok _ =>
        match w.newPage with
        | Res.thrown e => fatalOut [] [] 0 e
        | Res.ok _ =>
          match w.goto with
          | Res.thrown e => fatalOut [] [] 0 e
          | Res.ok _ =>
            match w.waitForSelector with
            | Res.thrown e => fatalOut [navE w] [] 0 e
            | Res.ok _ =>
              if w.selectorFound then
                match w.elementScreenshot with
                | Res.thrown e => fatalOut [navE w, locE w] [] 0 e
                | Res.ok _ =>
                  match w.readFile with
                  | Res.thrown e => fatalOut [navE w, locE w] [] 1 e
                  | Res.ok _ =>
                    match w.s3Send with
                    | Res.thrown e => fatalOut [navE w, locE w] [putOf w] 1 e
                    | Res.ok _ => successTryOut w
              else
                fatalOut [navE w, locE w] [] 0
                  "Flight booking component not found."

/-- The JSON object the handler passes to JSON.stringify as the body. -/
structure Body (ε : Type) where
  message : String
  timestamp : String
  screenshotUrl : Option String
  event : ε
  totalExecutionTimeMs : Int
  testResults : List TestResult
deriving DecidableEq, Repr

/-- The APIGatewayProxyResult the handler returns. -/
structure Response (ε : Type) where
  statusCode : Nat
  contentType : String
  body : Body ε
deriving DecidableEq, Repr

/-- The response together with what the finally block did: how many times
browser.close() was invoked and the close error that was logged, if any. -/
structure HandlerOut (ε : Type) where
  response : Response ε
  closeInvocations : Nat
  closeErrorLogged : Option String
deriving DecidableEq, Repr

/-- The handler of src/unnamed/part_001: runs the try block, the catch block
(status 500, message `Fatal error: ` plus the message, one fatal entry pushed),
the finally block (browser.close() invoked exactly when launch resolved, a
close error only logged), and builds the response. -/
def handler {ε : Type} (w : World) (closeRes : Res Unit) (event : ε) :
    HandlerOut ε :=
  let t := runTry w
  let statusCode : Nat := match t.fatal with | none => 200 | some _ => 500
  let message : String :=
    match t.fatal with
    | none => "Success"
    | some e => "Fatal error: " ++ e
  let results : List TestResult :=
    match t.fatal with
    | none => t.results
    | some e => t.results ++ [⟨ fatalEntryName, Status.FAILURE, some e, none ⟩]
  let launched : Bool :=
    match w.launch with | Res.ok _ => true | Res.thrown _ => false
  let closeCount : Nat := if launched then 1 else 0
  let closeLog : Option String :=
    if launched then
      match closeRes with | Res.ok _ => none | Res.thrown e => some e
    else none
  ⟨ ⟨ statusCode, "application/json"
    , ⟨ message, w.iso t.isoUsed, t.url, event, t.totalMs, results ⟩ ⟩
  , closeCount, closeLog ⟩

/-- All pipeline stages of the run resolve (the battery probes are left free). -/
def pipelineOk (w : World) : Prop :=
  w.launch = Res.ok () ∧ w.newContext = Res.ok () ∧ w.newPage = Res.ok () ∧
  w.goto = Res.ok () ∧ w.waitForSelector = Res.ok () ∧
  w.selectorFound = true ∧ w.elementScreenshot = Res.ok () ∧
  w.readFile = Res.ok () ∧ w.s3Send = Res.ok ()

theorem runTry_success (w : World) (h : pipelineOk w) :
    runTry w = successTryOut w := by
  obtain ⟨h1, h2, h3, h4, h5, h6, h7, h8, h9⟩ := h
  simp [runTry, h1, h2, h3, h4, h5, h6, h7, h8, h9]

/-- Every run either completes the try block normally, or reaches the catch
block with the totalExecutionTimeMs variable still 0 and screenshotUrl still
null. -/
theorem runTry_cases (w : World) :
    runTry w = successTryOut w ∨
      ((runTry w).fatal.isSome ∧ (runTry w).totalMs = 0 ∧
        (runTry w).url = none) := by
  rcases w with
    ⟨ed, l, nc, np, g, ws, sf, es, rf, s3, eb, t1, t2, t3, t4, t5, t6, t7, t8,
      ck, iso⟩
  cases l <;> cases nc <;> cases np <;> cases g <;> cases ws <;> cases sf <;>
    cases es <;> cases rf <;> cases s3 <;>
      simp [runTry, fatalOut, successTryOut]

@[simp] theorem runCheck_name (n d : String) (ps : List (Res Unit)) :
    (runCheck n d ps).name = n := by
  unfold runCheck
  cases runProbes ps <;> rfl

/-- The five battery entries carry the five declared names in order, whatever
the probe outcomes. -/
theorem battery_names (w : World) :
    ((battery w).map fun t => t.name) = checkNames := by
  simp [battery, checks, checkNames]

/-- A concrete world in which every collaborator call resolves:
Date.now() returns 0, 1, 2, ... and toISOString() returns a fixed ISO stamp. -/
def wOK : World :=
  ⟨ [], Res.ok (), Res.ok (), Res.ok (), Res.ok (), Res.ok (), true
  , Res.ok (), Res.ok (), Res.ok (), none
  , Res.ok (), Res.ok (), Res.ok (), Res.ok (), Res.ok (), Res.ok ()
  , Res.ok (), Res.ok ()
  , fun k => (k : Int), fun _ => "2025-01-01T12:34:56.789Z" ⟩

/-- Like wOK but the element screenshot call throws. -/
def wCapFail : World := { wOK with elementScreenshot := Res.thrown "screenshot failed" }

/-- Like wOK but page.goto throws. -/
def wNavFail : World := { wOK with goto := Res.thrown "nav timeout" }

/-- Like wOK but the trip-type visibility probe throws. -/
def wTripFail : World := { wOK with tripTypeVisible := Res.thrown "trip selector missing" }

/-- Like wOK but the search-button enabled probe throws. -/
def wSearchFail : World := { wOK with searchEnabled := Res.thrown "button disabled" }

/-- Like wOK but the browser launch throws. -/
def wLaunchFail : World := { wOK with launch := Res.thrown "launch failed" }

/-- C1: the claim asserts that when capture fails after navigation and location
succeeded, the validation checks are still attempted and each contributes an
entry.  At this concrete run the screenshot call throws and the returned
testResults hold only the navigation entry, the location entry and the fatal
entry: no validation-check entry exists, refuting the claim. -/
theorem C1_counterexample :
    (handler wCapFail (Res.ok ()) (0 : Nat)).response.statusCode = 500 ∧
    (handler wCapFail (Res.ok ()) (0 : Nat)).response.body.screenshotUrl = none ∧
    ((handler wCapFail (Res.ok ()) (0 : Nat)).response.body.testResults.map
      fun t => t.name) =
      [ "Navigate to Aegean Air website", "Locate the booking component"
      , fatalEntryName ] := by
  decide

/-- C1 (amended): when the screenshot capture, the file read or the S3 upload
throws after navigation and location succeeded, the validation battery is NOT
attempted: the run is fatal, the testResults are exactly the navigation entry,
the location entry and the fatal entry, the status is 500 and screenshotUrl is
null. -/
theorem C1_amended {ε : Type} (w : World) (r : Res Unit) (ev : ε) (e : String)
    (h1 : w.launch = Res.ok ()) (h2 : w.newContext = Res.ok ())
    (h3 : w.newPage = Res.ok ()) (h4 : w.goto = Res.ok ())
    (h5 : w.waitForSelector = Res.ok ()) (h6 : w.selectorFound = true)
    (hfail : w.elementScreenshot = Res.thrown e ∨
      (w.elementScreenshot = Res.ok () ∧ w.readFile = Res.thrown e) ∨
      (w.elementScreenshot = Res.ok () ∧ w.readFile = Res.ok () ∧
        w.s3Send = Res.thrown e)) :
    (handler w r ev).response.statusCode = 500 ∧
    (handler w r ev).response.body.screenshotUrl = none ∧
    ((handler w r ev).response.body.testResults.map fun t => t.name) =
      [ "Navigate to Aegean Air website", "Locate the booking component"
      , fatalEntryName ] := by
  rcases hfail with hf | ⟨ha, hf⟩ | ⟨ha, hb, hf⟩
  · simp [handler, runTry, h1, h2, h3, h4, h5, h6, hf, fatalOut, navE, locE]
  · simp [handler, runTry, h1, h2, h3, h4, h5, h6, ha, hf, fatalOut, navE, locE]
  · simp [handler, runTry, h1, h2, h3, h4, h5, h6, ha, hb, hf, fatalOut, navE,
      locE]

theorem C1_amended_witness :
    (handler wCapFail (Res.ok ()) (1 : Nat)).response.statusCode = 500 ∧
    (handler wCapFail (Res.ok ()) (1 : Nat)).response.body.screenshotUrl = none ∧
    ((handler wCapFail (Res.ok ()) (1 : Nat)).response.body.testResults.map
      fun t => t.name) =
      [ "Navigate to Aegean Air website", "Locate the booking component"
      , fatalEntryName ] :=
  C1_amended wCapFail (Res.ok ()) 1 "screenshot failed" rfl rfl rfl rfl rfl rfl
    (Or.inl rfl)

/-- C3: when page.goto or page.waitForSelector throws, the testResults hold no
validation-check entry and no summary entry, exactly one entry named as the
fatal entry, the last entry is the FAILURE fatal entry carrying the message,
screenshotUrl is null and the status is 500. -/
theorem C3_fatal_nav_or_locate {ε : Type} (w : World) (r : Res Unit) (ev : ε)
    (e : String)
    (h1 : w.launch = Res.ok ()) (h2 : w.newContext = Res.ok ())
    (h3 : w.newPage = Res.ok ())
    (hfail : w.goto = Res.thrown e ∨
      (w.goto = Res.ok () ∧ w.waitForSelector = Res.thrown e)) :
    (handler w r ev).response.statusCode = 500 ∧
    (handler w r ev).response.body.screenshotUrl = none ∧
    (((handler w r ev).response.body.testResults.map fun t => t.name) =
        [fatalEntryName] ∨
      ((handler w r ev).response.body.testResults.map fun t => t.name) =
        [ "Navigate to Aegean Air website", fatalEntryName ]) ∧
    (handler w r ev).response.body.testResults.getLast? =
      some ⟨ fatalEntryName, Status.FAILURE, some e, none ⟩ := by
  rcases hfail with hf | ⟨hg, hf⟩
  · simp [handler, runTry, h1, h2, h3, hf, fatalOut]
  · simp [handler, runTry, h1, h2, h3, hg, hf, fatalOut, navE]

theorem C3_fatal_nav_or_locate_witness :
    (handler wNavFail (Res.ok ()) (0 : Nat)).response.statusCode = 500 ∧
    (handler wNavFail (Res.ok ()) (0 : Nat)).response.body.screenshotUrl = none ∧
    (((handler wNavFail (Res.ok ()) (0 : Nat)).response.body.testResults.map
        fun t => t.name) = [fatalEntryName] ∨
      ((handler wNavFail (Res.ok ()) (0 : Nat)).response.body.testResults.map
        fun t => t.name) =
        [ "Navigate to Aegean Air website", fatalEntryName ]) ∧
    (handler wNavFail (Res.ok ()) (0 : Nat)).response.body.testResults.getLast? =
      some ⟨ fatalEntryName, Status.FAILURE, some "nav timeout", none ⟩ :=
  C3_fatal_nav_or_locate wNavFail (Res.ok ()) 0 "nav timeout" rfl rfl rfl
    (Or.inl rfl)

/-- C2: when the pipeline stages all resolve and some validation block's probe
throws with message m, the error is caught at the block boundary: that block's
entry is FAILURE with details `Error: ` plus m, every block still contributes
its own entry under its declared name, the full testResults are the three
pipeline entries, the five battery entries and the summary entry, and the
status stays 200. -/
theorem C2_check_isolation {ε : Type} (w : World) (r : Res Unit) (ev : ε)
    (hp : pipelineOk w) (j : Nat) (c : String × String × List (Res Unit))
    (m : String) (hc : (checks w)[j]? = some c)
    (hthrow : runProbes c.2.2 = Res.thrown m) :
    (handler w r ev).response.statusCode = 200 ∧
    (handler w r ev).response.body.testResults =
      [navE w, locE w, capE w] ++ battery w ++ [sumE w] ∧
    ((battery w).map fun t => t.name) = checkNames ∧
    (battery w)[j]? =
      some ⟨ c.1, Status.FAILURE, some ("Error: " ++ m), none ⟩ := by
  refine ⟨?_, ?_, battery_names w, ?_⟩
  · simp [handler, runTry_success w hp, successTryOut]
  · simp [handler, runTry_success w hp, successTryOut]
  · rw [battery, List.getElem?_map, hc]
    simp [runCheck, hthrow]

theorem C2_check_isolation_witness :
    (handler wTripFail (Res.ok ()) (0 : Nat)).response.statusCode = 200 ∧
    (handler wTripFail (Res.ok ()) (0 : Nat)).response.body.testResults =
      [navE wTripFail, locE wTripFail, capE wTripFail] ++ battery wTripFail ++
        [sumE wTripFail] ∧
    ((battery wTripFail).map fun t => t.name) = checkNames ∧
    (battery wTripFail)[0]? =
      some ⟨ tripTypeName, Status.FAILURE
           , some ("Error: " ++ "trip selector missing"), none ⟩ :=
  C2_check_isolation wTripFail (Res.ok ()) 0
    ⟨rfl, rfl, rfl, rfl, rfl, rfl, rfl, rfl, rfl⟩ 0
    (tripTypeName, tripTypeOkDetails, [Res.thrown "trip selector missing"])
    "trip selector missing" rfl rfl

/-- C4: the claim asserts eight checks each contributing its own StepResult.
At this concrete run with every collaborator resolving, the battery contributes
five entries (origin and destination share one block, the two date probes share
one block, the two search-button probes share one block) and the full
testResults hold nine entries, not twelve, refuting the claim. -/
theorem C4_counterexample :
    (battery wOK).length = 5 ∧ ¬ (battery wOK).length = 8 ∧
    ((battery wOK).map fun t => t.name) = checkNames ∧
    (handler wOK (Res.ok ()) (0 : Nat)).response.body.testResults.length = 9 := by
  decide

/-- C4 (amended): the battery runs its eight probes strictly sequentially in
the declared order, grouped into five try/catch blocks (trip type; passengers
and class; origin and destination; departure and return dates; search-button
visibility then enabled state), each block contributing one StepResult; when
only the search-button enabled probe throws, the single search-button entry is
FAILURE with the error message while the other four entries carry their own
outcomes, the status stays 200 and the screenshot URL is present. -/
theorem C4_amended {ε : Type} (w : World) (r : Res Unit) (ev : ε) (m : String)
    (hp : pipelineOk w)
    (ht : w.tripTypeVisible = Res.ok ())
    (hpa : w.passengersVisible = Res.ok ())
    (ho : w.originVisible = Res.ok ()) (hd : w.destinationVisible = Res.ok ())
    (hdep : w.departureVisible = Res.ok ()) (hret : w.returnVisible = Res.ok ())
    (hs : w.searchVisible = Res.ok ()) (he : w.searchEnabled = Res.thrown m) :
    (handler w r ev).response.statusCode = 200 ∧
    (handler w r ev).response.body.screenshotUrl = some (urlOf w) ∧
    battery w =
      [ ⟨ tripTypeName, Status.SUCCESS, some tripTypeOkDetails, none ⟩
      , ⟨ passengersName, Status.SUCCESS, some passengersOkDetails, none ⟩
      , ⟨ originDestName, Status.SUCCESS, some originDestOkDetails, none ⟩
      , ⟨ datesName, Status.SUCCESS, some datesOkDetails, none ⟩
      , ⟨ searchName, Status.FAILURE, some ("Error: " ++ m), none ⟩ ] ∧
    (handler w r ev).response.body.testResults =
      [navE w, locE w, capE w] ++ battery w ++ [sumE w] := by
  refine ⟨?_, ?_, ?_, ?_⟩
  · simp [handler, runTry_success w hp, successTryOut]
  · simp [handler, runTry_success w hp, successTryOut]
  · simp [battery, checks, runCheck, runProbes, ht, hpa, ho, hd, hdep, hret,
      hs, he]
  · simp [handler, runTry_success w hp, successTryOut]

theorem C4_amended_witness :
    (handler wSearchFail (Res.ok ()) (0 : Nat)).response.statusCode = 200 ∧
    (handler wSearchFail (Res.ok ()) (0 : Nat)).response.body.screenshotUrl =
      some (urlOf wSearchFail) ∧
    battery wSearchFail =
      [ ⟨ tripTypeName, Status.SUCCESS, some tripTypeOkDetails, none ⟩
      , ⟨ passengersName, Status.SUCCESS, some passengersOkDetails, none ⟩
      , ⟨ originDestName, Status.SUCCESS, some originDestOkDetails, none ⟩
      , ⟨ datesName, Status.SUCCESS, some datesOkDetails, none ⟩
      , ⟨ searchName, Status.FAILURE, some ("Error: " ++ "button disabled")
        , none ⟩ ] ∧
    (handler wSearchFail (Res.ok ()) (0 : Nat)).response.body.testResults =
      [navE wSearchFail, locE wSearchFail, capE wSearchFail] ++
        battery wSearchFail ++ [sumE wSearchFail] :=
  C4_amended wSearchFail (Res.ok ()) 0 "button disabled"
    ⟨rfl, rfl, rfl, rfl, rfl, rfl, rfl, rfl, rfl⟩ rfl rfl rfl rfl rfl rfl rfl
    rfl

/-- C6: whenever the pipeline stages resolve, whatever the probe outcomes, the
testResults end with exactly one battery-completion entry, appended after all
five check entries, and its status is SUCCESS. -/
theorem C6_summary_entry {ε : Type} (w : World) (r : Res Unit) (ev : ε)
    (hp : pipelineOk w) :
    (handler w r ev).response.body.testResults =
      [navE w, locE w, capE w] ++ battery w ++ [sumE w] ∧
    (sumE w).name = "Booking form validation" ∧
    (sumE w).status = Status.SUCCESS ∧
    (((handler w r ev).response.body.testResults.map fun t => t.name).count
      "Booking form validation") = 1 := by
  have hres : (handler w r ev).response.body.testResults =
      [navE w, locE w, capE w] ++ battery w ++ [sumE w] := by
    simp [handler, runTry_success w hp, successTryOut]
  refine ⟨hres, rfl, rfl, ?_⟩
  rw [hres]
  simp [battery_names w |>.symm]
  rw [battery_names w]
  simp [navE, locE, capE, sumE, checkNames, tripTypeName, passengersName,
    originDestName, datesName, searchName, List.count_cons]

theorem C6_summary_entry_witness :
    (handler wOK (Res.ok ()) (0 : Nat)).response.body.testResults =
      [navE wOK, locE wOK, capE wOK] ++ battery wOK ++ [sumE wOK] ∧
    (sumE wOK).name = "Booking form validation" ∧
    (sumE wOK).status = Status.SUCCESS ∧
    (((handler wOK (Res.ok ()) (0 : Nat)).response.body.testResults.map
      fun t => t.name).count "Booking form validation") = 1 :=
  C6_summary_entry wOK (Res.ok ()) 0
    ⟨rfl, rfl, rfl, rfl, rfl, rfl, rfl, rfl, rfl⟩

/-- C5: when the launch resolved, browser.close() is invoked exactly once by
the finally block, whatever happened downstream, and the already-determined
response (status, message, screenshotUrl, testResults) is the same whatever
the close outcome: a close failure is only logged. -/
theorem C5_close_guaranteed {ε : Type} (w : World) (r r2 : Res Unit) (ev : ε)
    (h : w.launch = Res.ok ()) :
    (handler w r ev).closeInvocations = 1 ∧
    (handler w r ev).response = (handler w r2 ev).response := by
  exact ⟨by simp [handler, h], rfl⟩

theorem C5_close_guaranteed_witness :
    (handler wOK (Res.thrown "close failed") (0 : Nat)).closeInvocations = 1 ∧
    (handler wOK (Res.thrown "close failed") (0 : Nat)).response =
      (handler wOK (Res.ok ()) (0 : Nat)).response :=
  C5_close_guaranteed wOK (Res.thrown "close failed") (Res.ok ()) 0 rfl

/-- C7: for every world (every combination of collaborator outcomes), every
close outcome and every inbound event, the handler returns a response whose
status is 200 with message Success or 500 with the fatal message, whose
Content-Type is application/json, and whose body echoes the inbound event and
carries the timestamp, the screenshotUrl and the testResults. -/
theorem C7_always_responds {ε : Type} (w : World) (r : Res Unit) (ev : ε) :
    (((handler w r ev).response.statusCode = 200 ∧
        (handler w r ev).response.body.message = "Success") ∨
      (∃ e, (runTry w).fatal = some e ∧
        (handler w r ev).response.statusCode = 500 ∧
        (handler w r ev).response.body.message = "Fatal error: " ++ e)) ∧
    (handler w r ev).response.contentType = "application/json" ∧
    (handler w r ev).response.body.event = ev ∧
    (handler w r ev).response.body.screenshotUrl = (runTry w).url ∧
    (handler w r ev).response.body.timestamp = w.iso (runTry w).isoUsed := by
  cases h : (runTry w).fatal with
  | none => exact ⟨Or.inl ⟨by simp [handler, h], by simp [handler, h]⟩, rfl,
      rfl, rfl, rfl⟩
  | some e => exact ⟨Or.inr ⟨e, rfl, by simp [handler, h], by simp [handler, h]⟩,
      rfl, rfl, rfl, rfl⟩

@[simp] theorem sanitizeChar_no_colon_dot (a : Char) :
    (sanitizeChar a != ':' && sanitizeChar a != '.') = true := by
  unfold sanitizeChar
  split
  · decide
  · rename_i h
    push_neg at h
    simp [bne_iff_ne, h.1, h.2]

/-- Every character of the sanitised timestamp differs from colon and period. -/
theorem sanitize_no_colon_dot (s : String) :
    ((sanitize s).data.all fun c => c != ':' && c != '.') = true := by
  rw [List.all_eq_true]
  intro c hc
  rw [sanitize] at hc
  simp only [String.data] at hc
  rcases List.mem_map.mp hc with ⟨a, _, rfl⟩
  exact sanitizeChar_no_colon_dot a

/-- C8: whenever the response carries a screenshot URL, the URL is exactly
https:// plus the bucket, .s3.amazonaws.com/screenshots/ and the filename; the
filename embeds the first toISOString() value with every colon and period
replaced by a dash, so its timestamp-derived part holds no raw colon or
period; and the one S3 put of the run used the key under the screenshots/
prefix with content type image/png. -/
theorem C8_url_shape {ε : Type} (w : World) (r : Res Unit) (ev : ε)
    (u : String)
    (hu : (handler w r ev).response.body.screenshotUrl = some u) :
    u = "https://" ++ bucketOf w ++ ".s3.amazonaws.com/screenshots/" ++
      filenameOf (w.iso 0) ∧
    filenameOf (w.iso 0) =
      "aegean-flight-booking-" ++ sanitize (w.iso 0) ++ ".png" ∧
    ((sanitize (w.iso 0)).data.all fun c => c != ':' && c != '.') = true ∧
    (runTry w).puts =
      [⟨ bucketOf w, "screenshots/" ++ filenameOf (w.iso 0), "image/png" ⟩] := by
  have hbody : (handler w r ev).response.body.screenshotUrl = (runTry w).url :=
    rfl
  rw [hbody] at hu
  rcases runTry_cases w with hs | ⟨_, _, hnone⟩
  · rw [hs] at hu
    rw [successTryOut] at hu
    simp only [Option.some.injEq] at hu
    subst hu
    exact ⟨rfl, rfl, sanitize_no_colon_dot (w.iso 0), by
      rw [hs]; rfl⟩
  · rw [hnone] at hu
    exact absurd hu (by simp)

theorem C8_url_shape_witness :
    "https://technical-playwright-result.s3.amazonaws.com/screenshots/aegean-flight-booking-2025-01-01T12-34-56-789Z.png" =
      "https://" ++ bucketOf wOK ++ ".s3.amazonaws.com/screenshots/" ++
        filenameOf (wOK.iso 0) ∧
    filenameOf (wOK.iso 0) =
      "aegean-flight-booking-" ++ sanitize (wOK.iso 0) ++ ".png" ∧
    ((sanitize (wOK.iso 0)).data.all fun c => c != ':' && c != '.') = true ∧
    (runTry wOK).puts =
      [⟨ bucketOf wOK, "screenshots/" ++ filenameOf (wOK.iso 0)
       , "image/png" ⟩] :=
  C8_url_shape wOK (Res.ok ()) (0 : Nat)
    "https://technical-playwright-result.s3.amazonaws.com/screenshots/aegean-flight-booking-2025-01-01T12-34-56-789Z.png"
    (by decide)

/-- The JavaScript comma operator: both operands are evaluated, the value is
the second. -/
def commaExpr {α β : Type} (_a : α) (b : β) : β := b

/-- The filename template literal of src/src/index.ts lines 173-175: the
interpolated comma expression over process.env.PREFIX and the empty string,
then -aegean-flight-booking-, the sanitised timestamp and .png. -/
def indexFilename (p : Option String) (ts : String) : String :=
  commaExpr p "" ++ "-aegean-flight-booking-" ++ sanitize ts ++ ".png"

/-- The S3 key of src/src/index.ts line 197. -/
def indexKey (p : Option String) (ts : String) : String :=
  "screenshots/" ++ indexFilename p ts

/-- C9: the comma expression always yields its second operand (the empty
string), so for any two values of the PREFIX environment variable, all other
inputs equal, the filename and the S3 key of src/src/index.ts are identical:
the prefix override is dead code. -/
theorem C9_comma_dead_code :
    ∀ (p1 p2 : Option String) (ts : String),
      commaExpr p1 "" = "" ∧
      indexFilename p1 ts = indexFilename p2 ts ∧
      indexKey p1 ts = indexKey p2 ts ∧
      indexFilename p1 ts =
        "-aegean-flight-booking-" ++ sanitize ts ++ ".png" := by
  intro p1 p2 ts
  exact ⟨rfl, rfl, rfl, rfl⟩

/-- C10: whenever the catch block ran (the try block ended with a fatal
error), the status is 500 and the totalExecutionTimeMs of the body is the
initial 0, not the elapsed time up to the failure: the variable is assigned
only at the very end of the try block. -/
theorem C10_total_time_zero {ε : Type} (w : World) (r : Res Unit) (ev : ε)
    (m : String) (hf : (runTry w).fatal = some m) :
    (handler w r ev).response.statusCode = 500 ∧
    (handler w r ev).response.body.totalExecutionTimeMs = 0 := by
  rcases runTry_cases w with hs | ⟨_, hzero, _⟩
  · rw [hs] at hf
    exact absurd hf (by simp [successTryOut])
  · constructor
    · simp [handler, hf]
    · have : (handler w r ev).response.body.totalExecutionTimeMs =
        (runTry w).totalMs := rfl
      rw [this, hzero]

theorem C10_total_time_zero_witness :
    (handler wLaunchFail (Res.ok ()) (0 : Nat)).response.statusCode = 500 ∧
    (handler wLaunchFail (Res.ok ()) (0 : Nat)).response.body.totalExecutionTimeMs =
      0 :=
  C10_total_time_zero wLaunchFail (Res.ok ()) 0 "launch failed" (by decide)

end FlightBooking
